import Mathlib

/-!
Verification development for the GitHub file-mutation agent of this
repository (`utils/github_modifier.py`).  The definitions below are a
shallow embedding of the input-normalization, path-resolution and
dispatch code of `GitHubCodeModifier` and of the LangChain wrapper
`create_file_wrapper`.  Strings are modelled as `List Char`; the remote
file store is modelled as an association list of path/content records,
and - where a claim is about the dispatcher's reaction to store
responses rather than about a concrete store state - as an explicit
oracle of store responses.
-/

/-- Quote characters stripped/removed by the Python code (`'` and `"`). -/
def isQuoteCh (c : Char) : Bool := c = '\x27' || c = '\x22'

/-- ASCII whitespace as recognised by Python `str.strip()`. -/
def isWSCh (c : Char) : Bool :=
  c = ' ' || c = '\t' || c = '\n' || c = '\r' || c = '\x0b' || c = '\x0c'

/-- Boolean list-prefix test. -/
def hasPfx : List Char → List Char → Bool
  | [], _ => true
  | _ :: _, [] => false
  | a :: as, b :: bs => a == b && hasPfx as bs

/-- Boolean list-suffix test (Python `str.endswith`). -/
def hasSfx (sfx s : List Char) : Bool := hasPfx sfx.reverse s.reverse

/-- Substring containment: `containsSub hay needle` is Python `needle in hay`. -/
def containsSub : List Char → List Char → Bool
  | [], needle => needle.isEmpty
  | c :: t, needle => hasPfx needle (c :: t) || containsSub t needle

/-- Python `str.strip()`: drop leading and trailing whitespace. -/
def pyStrip (s : List Char) : List Char :=
  ((s.dropWhile isWSCh).reverse.dropWhile isWSCh).reverse

/-- Python `str.strip('"\'')`: drop all leading and trailing quote characters. -/
def stripQ (s : List Char) : List Char :=
  ((s.dropWhile isQuoteCh).reverse.dropWhile isQuoteCh).reverse

/-- Python `s.replace("'", "").replace('"', "")`: delete every quote character. -/
def removeQuotes (s : List Char) : List Char := s.filter (fun c => !(isQuoteCh c))

/-- ASCII lower-casing of a string (Python `str.lower` on the ASCII inputs used here). -/
def lowerL (s : List Char) : List Char := s.map Char.toLower

/-- Python `os.path.basename`: the part after the last `/`. -/
def basenameOf (p : List Char) : List Char :=
  (p.reverse.takeWhile (fun c => !(c == '/'))).reverse

/-- Python `hay.split(sep, 1)` when the separator occurs: the parts before and
after the first occurrence of `sep`; `none` when `sep` does not occur. -/
def splitOnceSub (hay sep : List Char) : Option (List Char × List Char) :=
  match hay with
  | [] => if hasPfx sep [] then some ([], []) else none
  | c :: t =>
    if hasPfx sep (c :: t) then some ([], (c :: t).drop sep.length)
    else
      match splitOnceSub t sep with
      | some (a, b) => some (c :: a, b)
      | none => none

/-- Path normalization used by `read_file`, `edit_file`, `create_file` and
`delete_file` (`github_modifier.py` lines 165, 228, 274, 328):
`str(file_path).strip().replace("'", "").replace('"', "")`. -/
def normalize_path (p : List Char) : List Char := removeQuotes (pyStrip p)

/-- Tail of the regex `r":\s*['\x22]([^'\x22]+)['\x22]"`: skip whitespace, then a
quote, then capture the maximal nonempty run of non-quote characters, which
must be followed by a closing quote. -/
def matchValAfterColon (s : List Char) : Option (List Char) :=
  match s.dropWhile isWSCh with
  | [] => none
  | c :: t =>
    if isQuoteCh c then
      let v := t.takeWhile (fun d => !(isQuoteCh d))
      if v.isEmpty then none
      else
        match t.drop v.length with
        | [] => none
        | _ :: _ => some v
    else none

/-- Tail of the regex `r"['\x22]?\s*:\s*['\x22]([^'\x22]+)['\x22]"` applied after a
key: an optional quote, optional whitespace, a colon, then the quoted value. -/
def matchValQ (s : List Char) : Option (List Char) :=
  let s1 :=
    match s with
    | c :: t => if isQuoteCh c then t else c :: t
    | [] => []
  match s1.dropWhile isWSCh with
  | c :: t => if c = ':' then matchValAfterColon t else none
  | [] => none

/-- `re.search(r"key:\s*['\x22]([^'\x22]+)['\x22]", s)` (leftmost match), as used
by the `\x7bfile_path:` branch of `create_file_wrapper` (lines 672-673). -/
def searchKVPlain (key : List Char) : List Char → Option (List Char)
  | [] => none
  | c :: t =>
    match (if hasPfx (key ++ [':']) (c :: t)
           then matchValAfterColon ((c :: t).drop (key.length + 1))
           else none) with
    | some v => some v
    | none => searchKVPlain key t

/-- `re.search(r"['\x22]?key['\x22]?\s*:\s*['\x22]([^'\x22]+)['\x22]", s)`
(leftmost match), as used by the quoted-dict branch of `create_file_wrapper`
(lines 684-685). -/
def searchKVQ (key : List Char) : List Char → Option (List Char)
  | [] => none
  | c :: t =>
    match (if isQuoteCh c && hasPfx key t then matchValQ (t.drop key.length)
           else if hasPfx key (c :: t) then matchValQ ((c :: t).drop key.length)
           else none) with
    | some v => some v
    | none => searchKVQ key t

/-- `re.search(r"calculator\.py\s+(.+)", args, re.DOTALL)` (line 755): the
leftmost occurrence of the literal `calculator.py` followed by at least one
whitespace character; the group is everything after the (greedy) whitespace
run, backtracking one whitespace character when nothing would remain. -/
def calcSearch : List Char → Option (List Char)
  | [] => none
  | c :: t =>
    if hasPfx (("calculator.py").data) (c :: t) then
      let rest := (c :: t).drop 13
      let w := rest.takeWhile isWSCh
      let tl := rest.drop w.length
      if w.isEmpty then calcSearch t
      else if tl.isEmpty then
        if decide (2 ≤ w.length) then some (w.drop (w.length - 1)) else calcSearch t
      else some tl
    else calcSearch t

/-- `re.search(r"[\x22']([^\x22']+)[\x22']", args)` (line 764): the leftmost
nonempty quoted span. -/
def quotedSpan : List Char → Option (List Char)
  | [] => none
  | c :: t =>
    if isQuoteCh c then
      let v := t.takeWhile (fun d => !(isQuoteCh d))
      if v.isEmpty then quotedSpan t
      else
        match t.drop v.length with
        | [] => none
        | _ :: _ => some v
    else quotedSpan t

/-- `re.search(r"content[:\s]+([^,\x7d]+)", args, re.DOTALL)` (line 774): the
literal `content` followed by a nonempty run of colons/whitespace, then a
nonempty group of characters other than `,` and closing brace; the engine
backtracks one step into the colon/whitespace run if the group would be
empty. -/
def contentColonSearch : List Char → Option (List Char)
  | [] => none
  | c :: t =>
    if hasPfx (("content").data) (c :: t) then
      let rest := (c :: t).drop 7
      let w := rest.takeWhile (fun d => d == ':' || isWSCh d)
      let tl := rest.drop w.length
      if w.isEmpty then contentColonSearch t
      else
        let g := tl.takeWhile (fun d => !(d == ',' || d == '\x7d'))
        if !g.isEmpty then some g
        else if decide (2 ≤ w.length) then some (w.drop (w.length - 1))
        else contentColonSearch t
    else contentColonSearch t

/-- Degenerate-content test of `create_file_wrapper` (line 744):
`content == '\\' or content == '\x22' or content == "'" or len(content) < 5`. -/
def degenerateCt (ct : List Char) : Bool :=
  ct == (("\\").data) || ct == (("\x22").data) || ct == (("\x27").data) ||
    decide (ct.length < 5)

/-- Language-token test of the content-recovery chain (line 752):
`'def ' in args or 'import ' in args or 'print(' in args or 'return ' in args`. -/
def hasLangToken (s : List Char) : Bool :=
  containsSub s (("def ").data) || containsSub s (("import ").data) ||
    containsSub s (("print(").data) || containsSub s (("return ").data)

/-- Placeholder payload synthesized by Strategy 4 of the content-recovery
chain (`create_file_wrapper` lines 781-801). -/
def default_calculator_content : List Char :=
  ("def add(a, b):\n    return a + b\n\ndef subtract(a, b):\n    return a - b\n\ndef multiply(a, b):\n    return a * b\n\ndef divide(a, b):\n    if b == 0:\n        raise ValueError(\x22Cannot divide by zero\x22)\n    return a / b\n\n# Example usage\nif __name__ == \x22__main__\x22:\n    print(\x22Calculator Functions:\x22)\n    print(f\x225 + 3 = \x7badd(5, 3)\x7d\x22)\n    print(f\x2210 - 4 = \x7bsubtract(10, 4)\x7d\x22)\n    print(f\x226 * 7 = \x7bmultiply(6, 7)\x7d\x22)\n    print(f\x2215 / 3 = \x7bdivide(15, 3)\x7d\x22)").data

/-- Shape-recognition part of `create_file_wrapper` (lines 657-741): the
brace trimming, the ordered branch chain (brace-key form, quoted-dict form,
inline `' content: '` form, generic brace form, space-separated form), the
common strip/quote-strip cleanup, the validation of both pieces, and the
final conditional unquoting of the file path.  `none` models the Python
`ValueError` paths. -/
def parse_create_args (args : List Char) : Option (List Char × List Char) :=
  let cleaned0 := pyStrip args
  let cleaned :=
    if hasPfx (("\x7b").data) cleaned0 && !(hasSfx (("\x7d").data) cleaned0) then
      cleaned0.drop 1
    else if hasSfx (("\x7d").data) cleaned0 && !(hasPfx (("\x7b").data) cleaned0) then
      cleaned0.dropLast
    else cleaned0
  let raw : Option (List Char × List Char) :=
    if hasPfx (("\x7bfile_path:").data) cleaned then
      match searchKVPlain (("file_path").data) cleaned,
            searchKVPlain (("content").data) cleaned with
      | some fp, some ct => some (fp, ct)
      | _, _ => none
    else if hasPfx (("\x7b\x27file_path\x27").data) cleaned
        || hasPfx (("\x7b\x22file_path\x22").data) cleaned then
      match searchKVQ (("file_path").data) cleaned,
            searchKVQ (("content").data) cleaned with
      | some fp, some ct => some (fp, ct)
      | _, _ => none
    else if containsSub cleaned ((" content: ").data) then
      match splitOnceSub cleaned ((" content: ").data) with
      | some (a, b) => some (stripQ (pyStrip a), stripQ (pyStrip b))
      | none => none
    else if hasPfx (("\x7b").data) cleaned && hasSfx (("\x7d").data) cleaned then
      match splitOnceSub (pyStrip (cleaned.drop 1).dropLast) ((":").data) with
      | some (a, b) => some (stripQ (pyStrip a), stripQ (pyStrip b))
      | none => none
    else
      match splitOnceSub cleaned ((" ").data) with
      | some (a, b) => some (stripQ (pyStrip a), stripQ (pyStrip b))
      | none => none
  match raw with
  | none => none
  | some (fp0, ct0) =>
    let fp1 := stripQ (pyStrip fp0)
    let ct1 := stripQ (pyStrip ct0)
    if fp1.isEmpty || fp1 == (("\x7b").data) || fp1 == (("\x7d").data) then none
    else if ct1.isEmpty then none
    else
      let fp2 :=
        if hasPfx (("\x27").data) fp1 && hasSfx (("\x27").data) fp1 then
          (fp1.drop 1).dropLast
        else if hasPfx (("\x22").data) fp1 && hasSfx (("\x22").data) fp1 then
          (fp1.drop 1).dropLast
        else fp1
      some (fp2, ct1)

/-- Content-recovery fallback chain of `create_file_wrapper` (lines 743-806):
when the extracted content is degenerate, try (a) everything after the
literal `calculator.py` when a language-like token occurs in the raw string,
(b) the first quoted span containing such a token, (c) a `content:`-prefixed
span, and (d) the synthesized placeholder payload.  An empty intermediate
result is falsy in Python and falls through to the next strategy. -/
def recover_content (args ct : List Char) : List Char :=
  if degenerateCt ct then
    let fb1 : List Char :=
      if hasLangToken args then
        match calcSearch args with
        | some g => pyStrip g
        | none => []
      else []
    let fb2 : List Char :=
      if fb1.isEmpty then
        match quotedSpan args with
        | some g =>
          if containsSub g (("def ").data) || containsSub g (("import ").data) then g
          else []
        | none => []
      else fb1
    let fb3 : List Char :=
      if fb2.isEmpty then
        match contentColonSearch args with
        | some g => stripQ (pyStrip g)
        | none => []
      else fb2
    if fb3.isEmpty then default_calculator_content else fb3
  else ct

/-- Full argument extraction of `create_file_wrapper`: shape recognition
followed by the content-recovery fallback chain. -/
def extract_create_args (args : List Char) : Option (List Char × List Char) :=
  match parse_create_args args with
  | some (fp, ct) => some (fp, recover_content args ct)
  | none => none

/-- One record of the remote repository tree: a path and its content. -/
structure FileRec where
  path : List Char
  content : List Char
deriving DecidableEq

/-- The remote store, modelled as the ordered recursive file listing that
`_get_all_files_recursive` would produce. -/
abbrev Store := List FileRec

/-- `repo.get_contents(p)` over the modelled store: an exact-path lookup;
`none` models the 404 error. -/
def store_get (st : Store) (p : List Char) : Option FileRec :=
  List.find? (fun f => f.path == p) st

/-- Opaque revision id of a stored file (the content sha returned by the
store); kept abstract as a function of the record. -/
def sha_of (f : FileRec) : List Char := ("sha-").data ++ f.path

/-- Result of the case-insensitive resolver `find_file_case_insensitive`
(lines 473-528): a resolved path, `None`, or the raised "Did you mean"
suggestion error. -/
inductive ResolveRes where
  | found (p : List Char)
  | notFound
  | ambiguous (sugg : List (List Char))
deriving DecidableEq

/-- `find_file_case_insensitive` (lines 473-528): exact-path probe, then
case-insensitive full-path or basename match (first hit in listing order),
then one-directional case-insensitive substring match of the target basename
inside candidate basenames, reported as suggestions capped at 5. -/
def find_file_case_insensitive (st : Store) (target : List Char) : ResolveRes :=
  match store_get st target with
  | some _ => ResolveRes.found target
  | none =>
    let tl := lowerL target
    let tb := lowerL (basenameOf target)
    let ex := st.filter (fun f => lowerL f.path == tl || lowerL (basenameOf f.path) == tb)
    match ex.head? with
    | some f => ResolveRes.found f.path
    | none =>
      let part := (st.filter (fun f => containsSub (lowerL (basenameOf f.path)) tb)).map
        (fun f => f.path)
      if part.isEmpty then ResolveRes.notFound else ResolveRes.ambiguous (part.take 5)

/-- Reserved non-path tokens rejected by `read_file` (line 173). -/
def denylist : List (List Char) :=
  [("docs.github").data, ("github.com").data, ("github").data, ("docs").data]

/-- `read_file` (lines 154-207): normalization, validation, case-insensitive
resolution, then fetch of the resolved path.  Errors are the raised message
strings. -/
def read_file (st : Store) (p : List Char) : Except (List Char) FileRec :=
  let np := normalize_path p
  if np.isEmpty || (pyStrip np).isEmpty then
    Except.error (("File path cannot be empty").data)
  else if denylist.contains (lowerL np) then
    Except.error (("\x27").data ++ np ++ ("\x27 is not a valid file path. Please specify a valid file name like \x27README.md\x27, \x27main.py\x27, etc.").data)
  else
    match find_file_case_insensitive st np with
    | ResolveRes.found ap =>
      match store_get st ap with
      | some f => Except.ok f
      | none =>
        Except.error (("File \x27").data ++ np ++ ("\x27 not found. Please check the file path and ensure the file exists in the repository.").data)
    | ResolveRes.notFound =>
      Except.error (("File \x27").data ++ np ++ ("\x27 not found. Use \x27list_files\x27 to explore the repository structure.").data)
    | ResolveRes.ambiguous _ =>
      Except.error (("File \x27").data ++ np ++ ("\x27 not found. Did you mean one of these?").data)

/-- `edit_file` (lines 209-253): normalization, then a direct
`repo.get_contents` on the normalized path (no case-insensitive resolution)
followed by `repo.update_file`; a 404 from the store surfaces as the
"Failed to edit file" error.  The store error text is abstracted as `404`. -/
def edit_file (st : Store) (p c : List Char) : Except (List Char) (List Char) × Store :=
  let np := normalize_path p
  match store_get st np with
  | none => (Except.error (("Failed to edit file ").data ++ np ++ (": 404").data), st)
  | some _ =>
    (Except.ok (("commit-edit-").data ++ np),
      st.map (fun g => if g.path == np then { g with content := c } else g))

/-- Store calls issued by `create_file`, recorded for the pre-flight
invariant: the existence probe (`repo.get_contents`) and the store create
call (`repo.create_file`). -/
inductive StoreCall where
  | getContents (p : List Char)
  | createCall (p : List Char)
deriving DecidableEq

/-- Message raised by `create_file` when the path already exists: the inner
"already exists" message (line 282) re-wrapped by the outer handler
(line 314). -/
def create_err_msg (np : List Char) : List Char :=
  ("Unexpected error creating file ").data ++ np ++ (": File ").data ++ np ++
    (" already exists. Use \x27edit\x27 instead of \x27create\x27 to update existing files.").data

/-- `create_file` (lines 255-314): normalization, an existence probe with
404 treated as the green light, then the store create call.  Returns the
result, the new store state, and the trace of store calls issued. -/
def create_file (st : Store) (p c : List Char) :
    Except (List Char) (List Char) × Store × List StoreCall :=
  let np := normalize_path p
  match store_get st np with
  | some _ =>
    (Except.error (create_err_msg np), st, [StoreCall.getContents np])
  | none =>
    (Except.ok (("commit-create-").data ++ np), st ++ [FileRec.mk np c],
      [StoreCall.getContents np, StoreCall.createCall np])

/-- Result dictionary of `delete_file`: the commit field and message. -/
structure DeleteRes where
  commit : List Char
  message : List Char
deriving DecidableEq

/-- Success message of the idempotent-delete branch (line 356). -/
def del_ok_msg (np : List Char) : List Char :=
  ("File \x27").data ++ np ++ ("\x27 was successfully deleted").data

/-- Error message of the confirmed-missing branch (line 350). -/
def del_nf_msg (np : List Char) : List Char :=
  ("File not found: \x27").data ++ np ++ ("\x27. The file might not exist or the path is incorrect.").data

/-- Default commit message of `delete_file` (line 316). -/
def del_commit_msg : List Char := ("Delete file via GitHub Code Modifier Agent").data

/-- `delete_file` (lines 316-363) against the deterministic store model:
normalization, fetch of the current revision, store delete; when the fetch
reports 404 the dispatcher re-probes existence and treats a confirmed-gone
file as success (`commit = "deleted"`), never mutating the store. -/
def delete_file (st : Store) (p : List Char) : Except (List Char) DeleteRes × Store :=
  let np := normalize_path p
  match store_get st np with
  | some f =>
    (Except.ok (DeleteRes.mk (sha_of f) del_commit_msg),
      st.filter (fun g => !(g.path == np)))
  | none =>
    match store_get st np with
    | some _ => (Except.error (del_nf_msg np), st)
    | none => (Except.ok (DeleteRes.mk (("deleted").data) (del_ok_msg np)), st)

/-- Store responses observed by one run of `delete_file`: the initial
`get_contents` (a sha when found), the `repo.delete_file` response, and the
re-probe `get_contents` in the 404 handler. -/
inductive DelResp where
  | ok (sha : List Char)
  | notFound
  | other
deriving DecidableEq

/-- Oracle of remote-store responses for a single `delete_file` run, used to
model the race in which the store's delete call itself reports 404. -/
structure DelOracle where
  get1 : Option (List Char)
  del : DelResp
  get2 : Option (List Char)

/-- The 404 handler of `delete_file` (lines 343-359): re-probe existence;
confirmed gone is success, still-present is the not-found error. -/
def delete_probe (g2 : Option (List Char)) (np : List Char) : Except (List Char) DeleteRes :=
  match g2 with
  | some _ => Except.error (del_nf_msg np)
  | none => Except.ok (DeleteRes.mk (("deleted").data) (del_ok_msg np))

/-- `delete_file` driven by an explicit response oracle (lines 331-363): a
404 from either the initial fetch or the delete call itself routes into the
re-probe handler; a non-404 store failure surfaces as the "Failed to
delete" error. -/
def delete_file_run (o : DelOracle) (p : List Char) : Except (List Char) DeleteRes :=
  let np := normalize_path p
  match o.get1 with
  | none => delete_probe o.get2 np
  | some _ =>
    match o.del with
    | DelResp.ok s => Except.ok (DeleteRes.mk s del_commit_msg)
    | DelResp.notFound => delete_probe o.get2 np
    | DelResp.other => Except.error (("Failed to delete file ").data ++ np ++ (": error").data)

/-- One item returned by `repo.get_contents` on a directory listing. -/
structure ListItem where
  name : List Char
  path : List Char
  ty : List Char
  size : Nat
  url : List Char
deriving DecidableEq

/-- One dictionary of the `list_files` result (lines 135-143): size is kept
only for files. -/
structure ListEntry where
  name : List Char
  path : List Char
  ty : List Char
  size : Option Nat
  url : List Char
deriving DecidableEq

/-- Conversion of a store item into a `list_files` result entry (lines 136-143). -/
def mk_entry (i : ListItem) : ListEntry :=
  ListEntry.mk i.name i.path i.ty (if i.ty == (("file").data) then some i.size else none) i.url

/-- Responses of the four root-listing access strategies attempted by
`list_files` (lines 114-130): empty string, `/`, default-branch-qualified,
explicit `main`-qualified.  `none` models a raised exception. -/
structure ListOracle where
  s1 : Option (List ListItem)
  s2 : Option (List ListItem)
  s3 : Option (List ListItem)
  s4 : Option (List ListItem)

/-- The nested try/except chain of `list_files` for the root path: the first
strategy that does not raise supplies the contents. -/
def root_contents (o : ListOracle) : Option (List ListItem) :=
  match o.s1 with
  | some l => some l
  | none =>
    match o.s2 with
    | some l => some l
    | none =>
      match o.s3 with
      | some l => some l
      | none => o.s4

/-- `list_files` on the root path (lines 112-152): the strategy chain, then
the per-item result dictionaries; if every strategy raises, the final 404
surfaces as the "Path not found" error. -/
def list_files_root (o : ListOracle) : Except (List Char) (List ListEntry) :=
  match root_contents o with
  | some l => Except.ok (l.map mk_entry)
  | none =>
    Except.error (("Path not found: \x27\x27. The directory might be empty or the path doesn\x27t exist.").data)

/-- `find_file` (lines 391-416) applied to the recursive listing: keeps the
files whose lower-cased basename contains the lower-cased query or is
contained in it (both directions). -/
def find_file (file_name : List Char) (all_files : Store) : Store :=
  List.filter
    (fun f =>
      containsSub (lowerL (basenameOf f.path)) (lowerL file_name) ||
        containsSub (lowerL file_name) (lowerL (basenameOf f.path)))
    all_files

/-! Helper lemmas shared by the claim theorems. -/

theorem containsSub_nil (hay : List Char) : containsSub hay [] = true := by
  cases hay <;> simp [containsSub, hasPfx]

theorem containsSub_append_right (x y n : List Char) (h : containsSub y n = true) :
    containsSub (x ++ y) n = true := by
  induction x with
  | nil => simpa using h
  | cons a t ih => simp [containsSub, ih]

theorem mem_of_mem_dropWhile (p : Char → Bool) (l : List Char) (c : Char)
    (h : c ∈ l.dropWhile p) : c ∈ l := by
  induction l with
  | nil => simp [List.dropWhile] at h
  | cons a t ih =>
    rw [List.dropWhile_cons] at h
    by_cases hp : p a
    · simp only [hp, if_true] at h
      exact List.mem_cons_of_mem a (ih h)
    · simpa [hp] using h

theorem mem_of_mem_pyStrip (s : List Char) (c : Char) (h : c ∈ pyStrip s) : c ∈ s := by
  unfold pyStrip at h
  have h1 := List.mem_reverse.mp h
  have h2 := mem_of_mem_dropWhile _ _ _ h1
  have h3 := List.mem_reverse.mp h2
  exact mem_of_mem_dropWhile _ _ _ h3

theorem store_get_filter_none (st : Store) (np : List Char) :
    store_get (st.filter (fun g => !(g.path == np))) np = none := by
  induction st with
  | nil => rfl
  | cons f t ih =>
    by_cases h : f.path == np
    · simp [store_get, List.filter_cons, h] at ih ⊢
    · simp [store_get, List.filter_cons, List.find?, h] at ih ⊢

/-! Claim theorems. -/

/-- Claim C7 counterexample: path normalization is not idempotent.  For the
input `' a '` (a quote, a space, the letter a, a space, a quote) one
application yields `  a  ` with surrounding spaces kept, and a second
application trims them. -/
theorem c7_counterexample :
    normalize_path (normalize_path (("\x27 a \x27").data)) ≠
      normalize_path (("\x27 a \x27").data) := by decide

/-- Claim C7 (amended): a second application of `normalize` only re-trims the
whitespace exposed by quote removal: `normalize (normalize p) = strip (normalize p)`
for every `p`; idempotence holds exactly when `normalize p` carries no
surrounding whitespace. -/
theorem c7_amended (p : List Char) :
    normalize_path (normalize_path p) = pyStrip (normalize_path p) := by
  show List.filter (fun c => !(isQuoteCh c)) (pyStrip (normalize_path p)) =
    pyStrip (normalize_path p)
  apply List.filter_eq_self.mpr
  intro c hc
  have h1 : c ∈ normalize_path p := mem_of_mem_pyStrip _ _ hc
  have h2 : c ∈ List.filter (fun c => !(isQuoteCh c)) (pyStrip p) := h1
  exact (List.mem_filter.mp h2).2

/-- Claim C8 counterexample: normalization does not preserve interior quote
characters: the path `ab'cd.py` is dispatched as `abcd.py`. -/
theorem c8_counterexample :
    normalize_path (("ab\x27cd.py").data) = (("abcd.py").data) ∧
      (("abcd.py").data) ≠ (("ab\x27cd.py").data) := by
  exact ⟨by decide, by decide⟩

/-- Claim C8 (amended): normalization trims surrounding whitespace and then
removes every single/double quote character wherever it occurs, so a
dispatched path never contains a quote character at all. -/
theorem c8_amended (p : List Char) :
    (normalize_path p).all (fun c => !(isQuoteCh c)) = true := by
  rw [List.all_eq_true]
  intro c hc
  have h1 : c ∈ List.filter (fun c => !(isQuoteCh c)) (pyStrip p) := hc
  exact (List.mem_filter.mp h1).2

/-- Claim C10: `find_file` matches basenames by case-insensitive substring in
both directions, so the empty query matches every file and returns the full
recursive listing unchanged. -/
theorem c10_find_file_empty (all_files : Store) :
    find_file (("").data) all_files = all_files := by
  unfold find_file
  apply List.filter_eq_self.mpr
  intro f hf
  simp [lowerL, containsSub_nil]

/-- Spec example input for the quoted-dict extraction form. -/
def c2_input : List Char :=
  ("\x7b\x27file_path\x27: \x27a.py\x27, \x27content\x27: \x27x=1\x27\x7d").data

set_option maxRecDepth 10000 in
/-- Claim C2 counterexample: on the quoted-dict form with content `x=1` the
extractor does NOT return the pair `("a.py", "x=1")`: the extracted content
has length 3 < 5, so the content-recovery fallback chain replaces it. -/
theorem c2_counterexample :
    extract_create_args c2_input ≠ some ((("a.py").data), (("x=1").data)) := by decide

set_option maxRecDepth 10000 in
/-- Claim C2 (amended): on `{'file_path': 'a.py', 'content': 'x=1'}` the
extractor returns the path `a.py` but, because `x=1` is shorter than 5
characters, the content-recovery chain substitutes the synthesized default
calculator payload; a quoted content value of length at least 5 (for example
`x=123`) is returned exactly. -/
theorem c2_amended :
    extract_create_args c2_input = some ((("a.py").data), default_calculator_content)
    ∧ extract_create_args
        (("\x7b\x27file_path\x27: \x27a.py\x27, \x27content\x27: \x27x=123\x27\x7d").data)
      = some ((("a.py").data), (("x=123").data)) := by
  exact ⟨by decide, by decide⟩

/-- Claim C1: when a file already exists at the (normalized) path,
`create_file` fails with the already-exists error whose message directs the
caller to use edit, leaves the store unchanged, issues only the existence
probe and no store create call - and in every run the probe is the first
store call issued. -/
theorem c1_create_existing_fails (st : Store) (p c : List Char) (f : FileRec)
    (h : store_get st (normalize_path p) = some f) :
    create_file st p c =
      (Except.error (create_err_msg (normalize_path p)), st,
        [StoreCall.getContents (normalize_path p)])
    ∧ containsSub (create_err_msg (normalize_path p))
        (("already exists. Use \x27edit\x27 instead of \x27create\x27").data) = true
    ∧ ∀ st' p' c', ((create_file st' p' c').2.2).head? =
        some (StoreCall.getContents (normalize_path p')) := by
  refine ⟨?_, ?_, ?_⟩
  · simp [create_file, h]
  · unfold create_err_msg
    exact containsSub_append_right _ _ _ (by decide)
  · intro st' p' c'
    cases hg : store_get st' (normalize_path p') <;> simp [create_file, hg]

/-- Concrete store used by the witness of C1. -/
def c1_store : Store := [FileRec.mk (("a.py").data) (("x").data)]

/-- Claim C1 witness at the concrete store holding `a.py`. -/
theorem c1_create_existing_fails_witness :
    create_file c1_store (("a.py").data) (("y").data) =
      (Except.error (create_err_msg (normalize_path (("a.py").data))), c1_store,
        [StoreCall.getContents (normalize_path (("a.py").data))])
    ∧ containsSub (create_err_msg (normalize_path (("a.py").data)))
        (("already exists. Use \x27edit\x27 instead of \x27create\x27").data) = true
    ∧ ∀ st' p' c', ((create_file st' p' c').2.2).head? =
        some (StoreCall.getContents (normalize_path p')) :=
  c1_create_existing_fails c1_store (("a.py").data) (("y").data)
    (FileRec.mk (("a.py").data) (("x").data)) (by decide)

/-- Claim C5: for a root listing the dispatcher attempts the four access
strategies in order and uses the first that does not raise; when the store
reports the empty sequence on the first non-raising strategy, `list_files`
returns the empty sequence, not an error. -/
theorem c5_list_root (o : ListOracle) (l : List ListItem)
    (h : root_contents o = some l) :
    list_files_root o = Except.ok (l.map mk_entry)
    ∧ (l = [] → list_files_root o = Except.ok [])
    ∧ (∀ l1, o.s1 = some l1 → l = l1)
    ∧ (o.s1 = none → ∀ l2, o.s2 = some l2 → l = l2)
    ∧ (o.s1 = none → o.s2 = none → ∀ l3, o.s3 = some l3 → l = l3)
    ∧ (o.s1 = none → o.s2 = none → o.s3 = none → o.s4 = some l) := by
  obtain ⟨s1, s2, s3, s4⟩ := o
  cases s1 <;> cases s2 <;> cases s3 <;> cases s4 <;>
    simp_all [root_contents, list_files_root]

/-- Oracle used by the witness of C5: the first strategy succeeds with the
empty listing of an empty repository. -/
def c5_oracle : ListOracle := ListOracle.mk (some []) none none none

/-- Claim C5 witness: the empty root listing produces the empty sequence. -/
theorem c5_list_root_witness : list_files_root c5_oracle = Except.ok [] :=
  (c5_list_root c5_oracle [] (by rfl)).2.1 rfl

/-- Concrete store used by the C6 theorems: a tree containing only `README.md`. -/
def c6_store : Store := [FileRec.mk (("README.md").data) (("hello").data)]

/-- Claim C6 counterexample: against a tree containing only `README.md`,
reading `README.MD` resolves case-insensitively and succeeds, but editing
`README.MD` fails (no resolution is attempted) and deleting `README.MD`
reports spurious success while leaving the store - including `README.md` -
untouched. -/
theorem c6_counterexample :
    read_file c6_store (("README.MD").data) =
      Except.ok (FileRec.mk (("README.md").data) (("hello").data))
    ∧ (edit_file c6_store (("README.MD").data) (("new").data)).1 =
        Except.error (("Failed to edit file README.MD: 404").data)
    ∧ delete_file c6_store (("README.MD").data) =
        (Except.ok (DeleteRes.mk (("deleted").data) (del_ok_msg (("README.MD").data))),
          c6_store) := by
  exact ⟨by rfl, by rfl, by rfl⟩

/-- Claim C6 (amended): only the read operation passes the normalized path
through the case-insensitive resolver; edit and delete dispatch the
normalized path directly to the store, so whenever the exact normalized path
is absent, edit fails and neither edit nor delete mutates the store, while
read still resolves `README.MD` to `README.md`. -/
theorem c6_amended :
    (∀ (st : Store) (p c : List Char), store_get st (normalize_path p) = none →
      (edit_file st p c).1 =
        Except.error ((("Failed to edit file ").data ++ normalize_path p ++ (": 404").data))
      ∧ (edit_file st p c).2 = st
      ∧ (delete_file st p).2 = st)
    ∧ read_file c6_store (("README.MD").data) =
        Except.ok (FileRec.mk (("README.md").data) (("hello").data)) := by
  refine ⟨?_, by rfl⟩
  intro st p c h
  refine ⟨?_, ?_, ?_⟩ <;> simp [edit_file, delete_file, h]

/-- Claim C3: a 404 store response routes `delete_file` into the re-probe
handler: a confirmed-gone file is reported as idempotent success with the
`deleted` marker, a still-present file as the not-found error; and in the
sequential store model a delete followed by a second delete of the same path
succeeds idempotently without mutating the store further. -/
theorem c3_delete_idempotent (o : DelOracle) (p : List Char) (st : Store) (f : FileRec)
    (hdel : o.del = DelResp.notFound)
    (hmem : store_get st (normalize_path p) = some f) :
    ((o.get2 = none →
        delete_file_run o p =
          Except.ok (DeleteRes.mk (("deleted").data) (del_ok_msg (normalize_path p))))
      ∧ (∀ s, o.get2 = some s →
          delete_file_run o p = Except.error (del_nf_msg (normalize_path p))))
    ∧ ((delete_file st p).1 = Except.ok (DeleteRes.mk (sha_of f) del_commit_msg)
      ∧ delete_file (delete_file st p).2 p =
          (Except.ok (DeleteRes.mk (("deleted").data) (del_ok_msg (normalize_path p))),
            (delete_file st p).2)) := by
  have hrm : store_get (st.filter (fun g => !(g.path == normalize_path p)))
      (normalize_path p) = none := store_get_filter_none st (normalize_path p)
  have h2 : (delete_file st p).2 = st.filter (fun g => !(g.path == normalize_path p)) := by
    simp [delete_file, hmem]
  refine ⟨⟨?_, ?_⟩, ?_, ?_⟩
  · intro hg2
    cases hg1 : o.get1 <;> simp [delete_file_run, delete_probe, hdel, hg2, hg1]
  · intro s hg2
    cases hg1 : o.get1 <;> simp [delete_file_run, delete_probe, hdel, hg2, hg1]
  · simp [delete_file, hmem]
  · rw [h2]
    simp [delete_file, hrm]

/-- Oracle used by the witness of C3: the initial fetch finds the file, the
store delete call itself reports not-found, and the re-probe confirms the
file gone. -/
def c3_oracle : DelOracle := DelOracle.mk (some (("s").data)) DelResp.notFound none

/-- Concrete store used by the witness of C3. -/
def c3_store : Store := [FileRec.mk (("a.py").data) (("x").data)]

/-- Claim C3 witness at a concrete oracle and store. -/
theorem c3_delete_idempotent_witness :
    ((c3_oracle.get2 = none →
        delete_file_run c3_oracle (("a.py").data) =
          Except.ok (DeleteRes.mk (("deleted").data)
            (del_ok_msg (normalize_path (("a.py").data)))))
      ∧ (∀ s, c3_oracle.get2 = some s →
          delete_file_run c3_oracle (("a.py").data) =
            Except.error (del_nf_msg (normalize_path (("a.py").data)))))
    ∧ ((delete_file c3_store (("a.py").data)).1 =
          Except.ok (DeleteRes.mk (sha_of (FileRec.mk (("a.py").data) (("x").data)))
            del_commit_msg)
      ∧ delete_file (delete_file c3_store (("a.py").data)).2 (("a.py").data) =
          (Except.ok (DeleteRes.mk (("deleted").data)
              (del_ok_msg (normalize_path (("a.py").data)))),
            (delete_file c3_store (("a.py").data)).2)) :=
  c3_delete_idempotent c3_oracle (("a.py").data) c3_store
    (FileRec.mk (("a.py").data) (("x").data)) rfl (by decide)

/-- Tree used by the C4 theorems, mirroring the spec example. -/
def c4_tree : Store :=
  [FileRec.mk (("utils/git_repo.py").data) [], FileRec.mk (("utils/github_agent.py").data) []]

/-- Claim C4 counterexample: resolving `utils/gitrepo.py` against a tree
containing `utils/git_repo.py` and `utils/github_agent.py` returns
not-found, not an ambiguous-path error listing the two candidates: the
substring test is one-directional and `gitrepo.py` is not a substring of
either basename. -/
theorem c4_counterexample :
    find_file_case_insensitive c4_tree (("utils/gitrepo.py").data) = ResolveRes.notFound
    ∧ ∀ sugg, find_file_case_insensitive c4_tree (("utils/gitrepo.py").data) ≠
        ResolveRes.ambiguous sugg := by
  have h0 : find_file_case_insensitive c4_tree (("utils/gitrepo.py").data) =
      ResolveRes.notFound := by decide
  refine ⟨h0, fun sugg h => ?_⟩
  rw [h0] at h
  exact ResolveRes.noConfusion h

/-- Claim C4 (amended): when steps 1-3 find nothing, the resolver performs a
one-directional case-insensitive substring match (the target basename must
occur inside a candidate basename); on the spec example this finds no
candidate and the resolver reports not-found; whenever it does report an
ambiguity, the suggestion list is nonempty, capped at 5, and every suggested
path has a basename containing the target basename. -/
theorem c4_amended :
    find_file_case_insensitive c4_tree (("utils/gitrepo.py").data) = ResolveRes.notFound
    ∧ ∀ (st : Store) (target : List Char) (sugg : List (List Char)),
        find_file_case_insensitive st target = ResolveRes.ambiguous sugg →
        sugg ≠ [] ∧ sugg.length ≤ 5 ∧
          ∀ q ∈ sugg, containsSub (lowerL (basenameOf q)) (lowerL (basenameOf target)) = true := by
  refine ⟨by decide, ?_⟩
  intro st target sugg h
  unfold find_file_case_insensitive at h
  split at h
  · exact ResolveRes.noConfusion h
  · dsimp only at h
    split at h
    · exact ResolveRes.noConfusion h
    · split at h
      · exact ResolveRes.noConfusion h
      · rename_i hne
        injection h with hs
        subst hs
        constructor
        · intro hnil
          apply hne
          rw [List.isEmpty_iff]
          rcases hq : (List.filter
              (fun f => containsSub (lowerL (basenameOf f.path)) (lowerL (basenameOf target))) st).map
              (fun f => f.path) with _ | ⟨a, l⟩
          · exact hq
          · rw [hq] at hnil
            simp [List.take] at hnil
        constructor
        · rw [List.length_take]
          exact Nat.min_le_left _ _
        · intro q hq
          have hq2 := List.take_subset _ _ hq
          obtain ⟨f, hf, hfq⟩ := List.mem_map.mp hq2
          have := (List.mem_filter.mp hf).2
          rw [← hfq]
          exact this

/-- Raw instruction used by the C9 counterexample: the filename is `foo.py`,
the extracted content `x=1` is degenerate, and a language-like token occurs
in the raw string. -/
def c9_input : List Char :=
  ("\x7b\x27file_path\x27: \x27foo.py\x27, \x27content\x27: \x27x=1\x27, \x27extra\x27: \x27def f(): pass\x27\x7d").data

set_option maxRecDepth 10000 in
/-- Claim C9 counterexample: with the recognized filename `foo.py` and a
language-like token in the raw string, the first content-recovery fallback
does NOT take everything after the recognized filename: the recovered
content is the synthesized calculator payload, which does not even occur as
a substring of the raw instruction. -/
theorem c9_counterexample :
    extract_create_args c9_input = some ((("foo.py").data), default_calculator_content)
    ∧ containsSub c9_input default_calculator_content = false := by
  exact ⟨by decide, by decide⟩

/-- Claim C9 (amended): the first content-recovery fallback searches for the
literal substring `calculator.py` - not the recognized filename - and, when
extraction yielded degenerate content, a language-like token occurs in the
raw string, and that literal search succeeds with a nonblank remainder, the
recovered content is that remainder, stripped. -/
theorem c9_amended (args fp ct g : List Char)
    (h1 : parse_create_args args = some (fp, ct))
    (h2 : degenerateCt ct = true)
    (h3 : hasLangToken args = true)
    (h4 : calcSearch args = some g)
    (h5 : (pyStrip g).isEmpty = false) :
    extract_create_args args = some (fp, pyStrip g) := by
  simp [extract_create_args, h1, recover_content, h2, h3, h4, h5]

/-- Raw instruction used by the witness of C9, containing the literal
`calculator.py` followed by whitespace and content. -/
def c9w_input : List Char := ("calculator.py def f(): pass content: \x27;\x27").data

/-- Claim C9 witness at a concrete raw instruction: the recovered content is
everything after the literal `calculator.py`. -/
theorem c9_amended_witness :
    extract_create_args c9w_input =
      some ((("calculator.py def f(): pass").data),
        pyStrip (("def f(): pass content: \x27;\x27").data)) :=
  c9_amended c9w_input (("calculator.py def f(): pass").data) ((";").data)
    (("def f(): pass content: \x27;\x27").data)
    (by decide) (by decide) (by decide) (by decide) (by decide)
